import Mathlib

/-!
Verification development for sharkmon (src/main.rs), a Shark 100S power
meter gateway: it polls three float registers over Modbus TCP, smooths
them with an EWMA, and serves the smoothed triple.

Modelling conventions:
* `f32` arithmetic is embedded over exact rationals `ℚ`; the structure of
  the computation (seed branch vs. smoothing branch, the α = 0.8 blend)
  is taken verbatim from the source.
* The register codec is embedded at the bit level over `Nat`; a bit
  pattern is interpreted as a rational by `f32_from_bits` (IEEE-754
  single precision; NaN/infinity patterns map to `none` and are outside
  the claims considered here).
* The Modbus transport is an environment mapping a request
  `(start_address, count)` to `some` word list on success or `none` on a
  read failure.  `update_pe` returns the ordered trace of requests it
  issued together with the optional new state.
* The acquisition loop is embedded as step functions: connection and
  per-tick read outcomes are supplied as data (`parseOk`, `connectOk`,
  one environment per tick), and a `meter.parse().unwrap()` panic is the
  distinguished outcome `fatalConfig` / `panicked`.
-/

/-- The `PowerEwma` struct of src/main.rs: the smoothed reading with its
"has received a first sample" flag; `f32` channels modelled as `ℚ`. -/
structure PowerEwma where
  initialized : Bool
  watts : ℚ
  volts : ℚ
  frequency : ℚ
deriving Repr, DecidableEq

/-- `PowerEwma::new()` = `PowerEwma::default()`: flag false, channels 0.0. -/
def PowerEwma.new : PowerEwma :=
  { initialized := false, watts := 0, volts := 0, frequency := 0 }

/-- `const EWMA_PARAM: f32 = 0.8` from src/main.rs. -/
def EWMA_PARAM : ℚ := 8 / 10

/-- `fn ewma(a, b, ewma) = a * ewma + b * (1.0 - ewma)` from src/main.rs. -/
def ewma (a b e : ℚ) : ℚ := a * e + b * (1 - e)

/-- `PowerEwma::update` from src/main.rs: seed the three channels on the
first sample and set the flag, otherwise blend each channel with
`ewma old incoming EWMA_PARAM`. -/
def PowerEwma.update (self : PowerEwma) (watts volts frequency : ℚ) : PowerEwma :=
  if !self.initialized then
    { initialized := true, watts := watts, volts := volts, frequency := frequency }
  else
    { self with
      watts := ewma self.watts watts EWMA_PARAM
      volts := ewma self.volts volts EWMA_PARAM
      frequency := ewma self.frequency frequency EWMA_PARAM }

/-- `fn beu16x2_to_f32(a: &[u16]) -> f32` from src/main.rs, at the bit
level: the resulting 32-bit pattern `(a[0] as u32) << 16 | (a[1] as u32)`.
Out-of-range indexing is modelled with default 0; every caller passes
exactly two words by construction (fixed read size 2). -/
def beu16x2_to_f32 (a : List Nat) : Nat :=
  ((a.getD 0 0) <<< 16) ||| (a.getD 1 0)

/-- Value of an IEEE-754 single-precision bit pattern as a rational:
`none` on NaN/infinity (exponent field 255), subnormals and zero at
exponent field 0, normals otherwise. -/
def f32_from_bits (bits : Nat) : Option ℚ :=
  let b : Nat := bits % 2 ^ 32
  let sign : ℚ := if b / 2 ^ 31 = 0 then 1 else -1
  let e : Nat := b / 2 ^ 23 % 2 ^ 8
  let m : Nat := b % 2 ^ 23
  if e = 255 then none
  else if e = 0 then some (sign * ((m : ℚ) / 2 ^ 23) * (2 : ℚ) ^ (-(126 : ℤ)))
  else some (sign * (1 + (m : ℚ) / 2 ^ 23) * (2 : ℚ) ^ ((e : ℤ) - 127))

/-- Total version of `f32_from_bits` used where the source just carries
the float along; NaN/infinity patterns (outside the claims) map to 0. -/
def f32val (bits : Nat) : ℚ := (f32_from_bits bits).getD 0

/-- A Modbus transport environment: response to `read_holding_registers
(addr, count)`, `none` modelling an `Err` (timeout, connection drop,
malformed response). -/
def ModbusEnv : Type := Nat × Nat → Option (List Nat)

/-- `const REG_WATTS: u16 = 0x383` from src/main.rs. -/
def REG_WATTS : Nat := 0x383

/-- `const REG_VOLTS: u16 = 0x03ED` from src/main.rs. -/
def REG_VOLTS : Nat := 0x03ED

/-- `const REG_FREQ: u16 = 0x0401` from src/main.rs. -/
def REG_FREQ : Nat := 0x0401

/-- `async fn read_f32(ctx, loc)` from src/main.rs:
`read_holding_registers(loc, 2)` then decode with `beu16x2_to_f32`. -/
def read_f32 (ctx : ModbusEnv) (loc : Nat) : Option ℚ :=
  (ctx (loc, 2)).map fun d => f32val (beu16x2_to_f32 d)

/-- `async fn update_pe(ctx, pe_mutex)` from src/main.rs: read watts,
then volts, then frequency (`?` short-circuits on the first failure),
then one `update` call with the decoded triple.  The first component is
the ordered trace of `(start_address, count)` requests issued; the
second is `some` of the new reading on success, `none` on `Err`. -/
def update_pe (ctx : ModbusEnv) (st : PowerEwma) :
    List (Nat × Nat) × Option PowerEwma :=
  match read_f32 ctx REG_WATTS with
  | none => ([(REG_WATTS, 2)], none)
  | some watts =>
    match read_f32 ctx REG_VOLTS with
    | none => ([(REG_WATTS, 2), (REG_VOLTS, 2)], none)
    | some volts =>
      match read_f32 ctx REG_FREQ with
      | none => ([(REG_WATTS, 2), (REG_VOLTS, 2), (REG_FREQ, 2)], none)
      | some frequency =>
        ([(REG_WATTS, 2), (REG_VOLTS, 2), (REG_FREQ, 2)],
          some (st.update watts volts frequency))

/-- How one call of `device_update_connect_loop` ended. -/
inductive LoopExit where
  /-- `meter.parse().unwrap()` panicked: unparsable endpoint. -/
  | fatalConfig
  /-- `tcp::connect(socket_addr).await?` returned `Err`. -/
  | connectErr
  /-- `update_pe` returned `Err` inside the polling loop. -/
  | readErr
deriving Repr, DecidableEq

/-- The polling loop inside `device_update_connect_loop` from
src/main.rs, driven by one transport environment per tick: on `Ok`
continue with the updated reading, on `Err` apply `update(0.0, 0.0,
0.0)` and return the error.  `(none, st)` means the supplied script ran
out while the loop was still polling. -/
def connectLoopGo : List ModbusEnv → PowerEwma → Option LoopExit × PowerEwma
  | [], st => (none, st)
  | ctx :: rest, st =>
    match (update_pe ctx st).2 with
    | some st' => connectLoopGo rest st'
    | none => (some LoopExit.readErr, st.update 0 0 0)

/-- `async fn device_update_connect_loop(pe_mutex, meter, verbose)` from
src/main.rs: `meter.parse().unwrap()` (panic on failure, modelled by
`parseOk = false`), then `tcp::connect` (`Err` modelled by `connectOk =
false`, reading untouched), then the polling loop. -/
def device_update_connect_loop (parseOk connectOk : Bool)
    (polls : List ModbusEnv) (st : PowerEwma) : Option LoopExit × PowerEwma :=
  if !parseOk then (some LoopExit.fatalConfig, st)
  else if !connectOk then (some LoopExit.connectErr, st)
  else connectLoopGo polls st

/-- Outcome of one iteration of the outer `loop` in `device_update`. -/
inductive IterResult where
  /-- The parse panic escaped `device_update_connect_loop`: no reset, no
  backoff, no further iteration (the task aborts). -/
  | panicked (st : PowerEwma)
  /-- The tick script ran out while still polling: the iteration has not
  completed (the real inner loop only exits by `Err` or panic). -/
  | polling (st : PowerEwma)
  /-- The call returned `Err e`: log, apply `update(0.0, 0.0, 0.0)`,
  sleep `backoffSecs` seconds, and go reconnect. -/
  | retry (e : LoopExit) (st : PowerEwma) (backoffSecs : Nat)
deriving Repr, DecidableEq

/-- The reading left behind by an iteration outcome. -/
def IterResult.state : IterResult → PowerEwma
  | .panicked st => st
  | .polling st => st
  | .retry _ st _ => st

/-- One iteration of the outer `loop` of `async fn device_update` from
src/main.rs: run `device_update_connect_loop`; on `Err` log it; then
`update(0.0, 0.0, 0.0)` and `sleep(2s)` before reconnecting.  A parse
panic propagates out of the loop body before the reset and the sleep. -/
def device_update_iter (parseOk connectOk : Bool)
    (polls : List ModbusEnv) (st : PowerEwma) : IterResult :=
  match device_update_connect_loop parseOk connectOk polls st with
  | (some LoopExit.fatalConfig, st') => IterResult.panicked st'
  | (some e, st') => IterResult.retry e (st'.update 0 0 0) 2
  | (none, st') => IterResult.polling st'

/-- A finite sequence of `update` calls applied in order. -/
def applyUpdates (st : PowerEwma) (samples : List (ℚ × ℚ × ℚ)) : PowerEwma :=
  samples.foldl (fun s t => s.update t.1 t.2.1 t.2.2) st

/-- A transport that fails every read. -/
def envFail : ModbusEnv := fun _ => none

/-- A transport answering every 2-register read with the pattern of
1000.0 (`[0x447A, 0x0000]`). -/
def envOk : ModbusEnv := fun rc => if rc.2 = 2 then some [0x447A, 0x0000] else none

/-- The reading after one successful seed sample `(100, 240, 60)`. -/
def stSeed : PowerEwma := PowerEwma.new.update 100 240 60

/-- Every `update` call leaves the flag true: the seed branch sets it,
and the smoothing branch runs only when it is already true. -/
theorem PowerEwma.update_sets_flag (st : PowerEwma) (w v f : ℚ) :
    (st.update w v f).initialized = true := by
  unfold PowerEwma.update
  cases h : st.initialized <;> simp [h]

/-- C3: for a fresh (uninitialized) reading, the first `update` sets the
three channels to exactly the incoming values, with no smoothing, and
sets the flag to true. -/
theorem C3_seed_sample (st : PowerEwma) (h : st.initialized = false) (w v f : ℚ) :
    st.update w v f = { initialized := true, watts := w, volts := v, frequency := f } := by
  simp [PowerEwma.update, h]

/-- C3 witness: the spec's concrete seed `update(100, 240, 60)` on a
fresh reading. -/
theorem C3_seed_sample_witness :
    PowerEwma.new.update 100 240 60 =
      { initialized := true, watts := 100, volts := 240, frequency := 60 } :=
  C3_seed_sample PowerEwma.new (by decide) 100 240 60

/-- C2: for an already-initialized reading, `update` sets each channel to
`old * 0.8 + incoming * 0.2`; in particular, from watts = 100 an update
with watts = 200 yields watts = 120 exactly (arithmetic over exact
rationals). -/
theorem C2_smoothing_formula (st : PowerEwma) (h : st.initialized = true) (w v f : ℚ) :
    st.update w v f =
      { initialized := true
        watts := st.watts * (8 / 10) + w * (2 / 10)
        volts := st.volts * (8 / 10) + v * (2 / 10)
        frequency := st.frequency * (8 / 10) + f * (2 / 10) } ∧
    ((PowerEwma.new.update 100 240 60).update 200 240 60).watts = 120 := by
  constructor
  · simp [PowerEwma.update, h, ewma, EWMA_PARAM]
    refine ⟨?_, ?_, ?_⟩ <;> ring_nf <;> norm_num
  · norm_num [PowerEwma.update, PowerEwma.new, ewma, EWMA_PARAM]

/-- C2 witness: the smoothing formula applied to the seeded reading
`(100, 240, 60)` with incoming sample `(200, 240, 60)`. -/
theorem C2_smoothing_formula_witness :
    stSeed.update 200 240 60 =
      { initialized := true
        watts := stSeed.watts * (8 / 10) + 200 * (2 / 10)
        volts := stSeed.volts * (8 / 10) + 240 * (2 / 10)
        frequency := stSeed.frequency * (8 / 10) + 60 * (2 / 10) } ∧
    ((PowerEwma.new.update 100 240 60).update 200 240 60).watts = 120 :=
  C2_smoothing_formula stSeed (by decide) 200 240 60

/-- C4: for every pair of 16-bit words `(hi, lo)`, the codec produces the
bit pattern `hi * 2^16 + lo` — `hi` is the high half and `lo` the low
half of the 32-bit IEEE-754 pattern — and the known pattern
`[0x447A, 0x0000]` decodes to 1000.0. -/
theorem C4_codec_halves (hi lo : Nat) (_hhi : hi < 2 ^ 16) (hlo : lo < 2 ^ 16) :
    beu16x2_to_f32 [hi, lo] = hi * 2 ^ 16 + lo ∧
    beu16x2_to_f32 [hi, lo] / 2 ^ 16 = hi ∧
    beu16x2_to_f32 [hi, lo] % 2 ^ 16 = lo ∧
    f32_from_bits (beu16x2_to_f32 [0x447A, 0x0000]) = some 1000 := by
  have h1 : beu16x2_to_f32 [hi, lo] = hi * 2 ^ 16 + lo := by
    show (hi <<< 16) ||| lo = hi * 2 ^ 16 + lo
    rw [Nat.shiftLeft_eq, Nat.mul_comm]
    exact (Nat.mul_add_lt_is_or hlo hi).symm
  refine ⟨h1, ?_, ?_, ?_⟩
  · rw [h1]; omega
  · rw [h1]; omega
  · norm_num [f32_from_bits, beu16x2_to_f32, Nat.shiftLeft_eq]

/-- C4 witness: the codec at the spec's concrete words `[0x447A, 0x0000]`. -/
theorem C4_codec_halves_witness :
    beu16x2_to_f32 [0x447A, 0x0000] = 0x447A * 2 ^ 16 + 0 ∧
    beu16x2_to_f32 [0x447A, 0x0000] / 2 ^ 16 = 0x447A ∧
    beu16x2_to_f32 [0x447A, 0x0000] % 2 ^ 16 = 0 ∧
    f32_from_bits (beu16x2_to_f32 [0x447A, 0x0000]) = some 1000 :=
  C4_codec_halves 0x447A 0 (by decide) (by decide)

/-- C7: a successful poll cycle issues the reads `(0x383, 2)`, then
`(0x03ED, 2)`, then `(0x0401, 2)`, in that fixed order, and feeds the
decoded triple into a single `update` call on the reading. -/
theorem C7_poll_order (ctx : ModbusEnv) (st : PowerEwma) (w v f : ℚ)
    (hw : read_f32 ctx REG_WATTS = some w)
    (hv : read_f32 ctx REG_VOLTS = some v)
    (hf : read_f32 ctx REG_FREQ = some f) :
    update_pe ctx st =
      ([(0x383, 2), (0x03ED, 2), (0x0401, 2)], some (st.update w v f)) := by
  simp only [update_pe, hw, hv, hf]
  rfl

/-- C7 witness: one poll cycle against a transport answering every
2-register read with the pattern of 1000.0. -/
theorem C7_poll_order_witness :
    update_pe envOk PowerEwma.new =
      ([(0x383, 2), (0x03ED, 2), (0x0401, 2)],
        some (PowerEwma.new.update 1000 1000 1000)) :=
  C7_poll_order envOk PowerEwma.new 1000 1000 1000
    (by norm_num [read_f32, envOk, REG_WATTS, f32val, f32_from_bits, beu16x2_to_f32,
      Nat.shiftLeft_eq])
    (by norm_num [read_f32, envOk, REG_VOLTS, f32val, f32_from_bits, beu16x2_to_f32,
      Nat.shiftLeft_eq])
    (by norm_num [read_f32, envOk, REG_FREQ, f32val, f32_from_bits, beu16x2_to_f32,
      Nat.shiftLeft_eq])

/-- C8: an unparsable endpoint is fatal and surfaced immediately: the
connect-loop call ends as `fatalConfig` with the reading untouched and no
poll issued, whatever the transport would have done, and the outer
iteration is `panicked` — the panic escapes before the fault reset, the
backoff and any retry. -/
theorem C8_config_parse_fatal (connectOk : Bool) (polls : List ModbusEnv) (st : PowerEwma) :
    device_update_connect_loop false connectOk polls st = (some LoopExit.fatalConfig, st) ∧
    device_update_iter false connectOk polls st = IterResult.panicked st := by
  constructor
  · simp [device_update_connect_loop]
  · simp [device_update_iter, device_update_connect_loop]

/-- C10: the `initialized` flag is monotone: once true it stays true
across every sequence of `update` calls with any arguments, including the
fault-path `update(0, 0, 0)` — `update` only ever sets it to true. -/
theorem C10_flag_monotone (st : PowerEwma) (samples : List (ℚ × ℚ × ℚ))
    (h : st.initialized = true) :
    (applyUpdates st samples).initialized = true := by
  induction samples generalizing st with
  | nil => simpa [applyUpdates] using h
  | cons s rest ih =>
      simp only [applyUpdates, List.foldl_cons] at ih ⊢
      exact ih _ (PowerEwma.update_sets_flag _ _ _ _)

/-- C10 witness: the flag survives a fault update followed by a normal
sample, starting from the seeded reading. -/
theorem C10_flag_monotone_witness :
    (applyUpdates stSeed [(0, 0, 0), (200, 240, 60)]).initialized = true :=
  C10_flag_monotone stSeed [(0, 0, 0), (200, 240, 60)] (by decide)

/-- C1 counterexample: seed the reading at `(100, 240, 60)`, then fail a
read.  The claim says the channels become exactly `(0, 0, 0)`; in fact
the polling loop's fault path calls `update(0, 0, 0)`, which smooths, so
watts becomes 80, not 0. -/
theorem C1_counterexample :
    stSeed.initialized = true ∧
    (connectLoopGo [envFail] stSeed).1 = some LoopExit.readErr ∧
    (connectLoopGo [envFail] stSeed).2.watts = 80 ∧ ((80 : ℚ) ≠ 0) := by
  refine ⟨by decide, by decide, ?_, by norm_num⟩
  norm_num [connectLoopGo, envFail, stSeed, update_pe, read_f32,
    PowerEwma.update, PowerEwma.new, ewma, EWMA_PARAM]

/-- C1 (amended): after at least one successful update, a read failure in
the polling loop applies the zero-sample EWMA update: each channel
becomes `old * 0.8` (exactly `(0, 0, 0)` only if the channels were
already zero), and `initialized` remains true. -/
theorem C1_fault_reset_smooths (st : PowerEwma) (h : st.initialized = true)
    (ctx : ModbusEnv) (hf : (update_pe ctx st).2 = none) :
    connectLoopGo [ctx] st =
      (some LoopExit.readErr,
        { initialized := true
          watts := st.watts * EWMA_PARAM
          volts := st.volts * EWMA_PARAM
          frequency := st.frequency * EWMA_PARAM }) := by
  simp [connectLoopGo, hf, PowerEwma.update, h, ewma]

/-- C1 witness: the amended fault behaviour at the seeded reading with an
always-failing transport. -/
theorem C1_fault_reset_smooths_witness :
    connectLoopGo [envFail] stSeed =
      (some LoopExit.readErr,
        { initialized := true
          watts := stSeed.watts * EWMA_PARAM
          volts := stSeed.volts * EWMA_PARAM
          frequency := stSeed.frequency * EWMA_PARAM }) :=
  C1_fault_reset_smooths stSeed (by decide) envFail (by decide)

/-- C5 counterexample: before any successful sample the flag is false,
yet the connect-failure fault reset (`update(0, 0, 0)` on the fresh
reading) takes the seed branch and sets it to true — so the reset is not
flag-preserving "regardless of whether a first successful sample has
arrived yet". -/
theorem C5_counterexample :
    PowerEwma.new.initialized = false ∧
    (device_update_iter true false [] PowerEwma.new).state.initialized = true := by
  decide

/-- C5 (amended): every fault-path reset — after a connect failure or a
read failure — leaves `initialized` true: it never clears the flag, and
if no successful sample has arrived yet the reset itself sets it (the
zero sample seeds the reading). -/
theorem C5_fault_reset_flag (st : PowerEwma) (ctx : ModbusEnv)
    (hf : (update_pe ctx st).2 = none) :
    (device_update_iter true false [] st).state.initialized = true ∧
    (device_update_iter true true [ctx] st).state.initialized = true := by
  constructor
  · simp [device_update_iter, device_update_connect_loop, connectLoopGo,
      IterResult.state, PowerEwma.update_sets_flag]
  · simp [device_update_iter, device_update_connect_loop, connectLoopGo, hf,
      IterResult.state, PowerEwma.update_sets_flag]

/-- C5 witness: both fault paths from the fresh reading leave the flag
true. -/
theorem C5_fault_reset_flag_witness :
    (device_update_iter true false [] PowerEwma.new).state.initialized = true ∧
    (device_update_iter true true [envFail] PowerEwma.new).state.initialized = true :=
  C5_fault_reset_flag PowerEwma.new envFail (by decide)

/-- C6 counterexample: from the seeded reading (watts = 100), a read
failure leaves watts = 64 (two zero-sample updates: one in the polling
loop, one in the outer loop) while a connect failure leaves watts = 80
(one zero-sample update) — the two recovery paths do not leave the same
state behind. -/
theorem C6_counterexample :
    (device_update_iter true true [envFail] stSeed).state.watts = 64 ∧
    (device_update_iter true false [] stSeed).state.watts = 80 ∧
    ((64 : ℚ) ≠ 80) := by
  refine ⟨?_, ?_, by norm_num⟩ <;>
    norm_num [device_update_iter, device_update_connect_loop, connectLoopGo, envFail,
      stSeed, update_pe, read_f32, IterResult.state,
      PowerEwma.update, PowerEwma.new, ewma, EWMA_PARAM]

/-- C6 (amended): a read failure and a connect failure both end the outer
iteration with the same fixed 2-second backoff and a return to
reconnecting, but the read failure applies the zero-sample fault update
twice (once in the polling loop, once in the outer loop) while the
connect failure applies it once, so the states left behind can differ. -/
theorem C6_fault_paths (st : PowerEwma) (ctx : ModbusEnv)
    (hf : (update_pe ctx st).2 = none) :
    device_update_iter true true [ctx] st =
      IterResult.retry LoopExit.readErr ((st.update 0 0 0).update 0 0 0) 2 ∧
    device_update_iter true false [] st =
      IterResult.retry LoopExit.connectErr (st.update 0 0 0) 2 := by
  constructor
  · simp [device_update_iter, device_update_connect_loop, connectLoopGo, hf]
  · simp [device_update_iter, device_update_connect_loop]

/-- C6 witness: the two fault paths instantiated at the seeded reading
and an always-failing transport. -/
theorem C6_fault_paths_witness :
    device_update_iter true true [envFail] stSeed =
      IterResult.retry LoopExit.readErr ((stSeed.update 0 0 0).update 0 0 0) 2 ∧
    device_update_iter true false [] stSeed =
      IterResult.retry LoopExit.connectErr (stSeed.update 0 0 0) 2 :=
  C6_fault_paths stSeed envFail (by decide)
